import Mathlib

/-!
Shallow embedding of the wallet-pass-server redemption core.

Sources embedded:
* `src/lib/code.ts` — `makeCode`, `sanitizeCode` (namespace `Code`);
* `discount-routes.ts` — `generateCode` (namespace `Discount`);
* `src/lib/token.ts` — `createDownloadToken`, `verifyDownloadToken`
  (namespace `Token`), with the `jsonwebtoken` sign/verify pair modelled
  as an abstract signed blob;
* the Express server (`src/index.ts`): the `checkout.session.completed`
  and `charge.refunded` webhook branches, the `/api/demo/checkout`
  handler, the `POST /api/redeem` handler and the
  `GET /api/pass/download` handler (namespace `Server`).

The Prisma `ConfirmationCode` table is modelled as an insertion-ordered
list of rows; `create` enforces the two unique constraints (`code`,
`stripePaymentId`) exactly as the storage layer does, failing with the
Prisma error code `P2002`.  JavaScript `Date.now()` timestamps are
nonnegative milliseconds, modelled as `Nat`; `Math.floor(ms / 1000)` is
then `Nat` division.  Randomness (`crypto.randomBytes`) is determinised
by passing the byte list explicitly.
-/

set_option maxRecDepth 8000

namespace WalletPass

/-! ### `src/lib/code.ts` -/

namespace Code

/-- JS `s[i]` for an in-range index; all call sites index with
`b % alphabet.length`, which is always in range for a nonempty alphabet. -/
def charAt (l : List Char) (h : 0 < l.length) (b : Nat) : Char :=
  l.get ⟨b % l.length, Nat.mod_lt _ h⟩

/-- `const ALPHABET = 'ABCDEFGHJKMNPQRSTVWXYZ23456789'; // no O/0/I/1/L` -/
def ALPHABET : List Char := "ABCDEFGHJKMNPQRSTVWXYZ23456789".toList

/-- JS `String.prototype.toUpperCase` on one character (ASCII range:
`'a'` = 97 … `'z'` = 122 map down by 32). -/
def jsUpperChar (c : Char) : Char :=
  if 97 ≤ c.toNat ∧ c.toNat ≤ 122 then Char.ofNat (c.toNat - 32) else c

/-- JS `String.prototype.toLowerCase` on one character (ASCII range:
`'A'` = 65 … `'Z'` = 90 map up by 32). -/
def jsLowerChar (c : Char) : Char :=
  if 65 ≤ c.toNat ∧ c.toNat ≤ 90 then Char.ofNat (c.toNat + 32) else c

/-- JS `s.toUpperCase()` (ASCII model). -/
def jsToUpperCase (s : String) : String := String.mk (s.data.map jsUpperChar)

/-- JS `s.toLowerCase()` (ASCII model). -/
def jsToLowerCase (s : String) : String := String.mk (s.data.map jsLowerChar)

/--
`makeCode` from `src/lib/code.ts`:

```
export function makeCode(len = 6): string {
  const bytes = crypto.randomBytes(len);
  let out = '';
  for (let i = 0; i < len; i++) out += ALPHABET[bytes[i] % ALPHABET.length];
  return out.toUpperCase();
}
```

The `len` random bytes are passed explicitly; the output length equals
`bytes.length`. -/
def makeCode (bytes : List Nat) : String :=
  jsToUpperCase (String.mk (bytes.map (charAt ALPHABET (by decide))))

/-- The character class kept by the regex replace `[^A-Z0-9]` → `''`
(`'A'` = 65, `'Z'` = 90, `'0'` = 48, `'9'` = 57). -/
def isAZ09 (c : Char) : Bool :=
  (65 ≤ c.toNat && c.toNat ≤ 90) || (48 ≤ c.toNat && c.toNat ≤ 57)

/-- The character class removed by the regex replace `[O0I1L]` → `''`. -/
def isAmbig (c : Char) : Bool :=
  c == 'O' || c == '0' || c == 'I' || c == '1' || c == 'L'

/--
`sanitizeCode` from `src/lib/code.ts`:

```
export function sanitizeCode(input: string): string {
  const up = input.toUpperCase().replace(/[^A-Z0-9]/g, '');
  return up.replace(/[O0I1L]/g, '');
}
```
-/
def sanitizeCode (input : String) : String :=
  let up := (jsToUpperCase input).data.filter isAZ09
  String.mk (up.filter (fun c => !(isAmbig c)))

end Code

/-! ### `generateCode` from `discount-routes.ts` -/

namespace Discount

/-- `const chars = 'ABCDEFGHJKLMNPQRSTUVWXYZ23456789';` -/
def chars : List Char := "ABCDEFGHJKLMNPQRSTUVWXYZ23456789".toList

/--
`generateCode` from `discount-routes.ts`:

```
function generateCode(length = 12) {
  const chars = 'ABCDEFGHJKLMNPQRSTUVWXYZ23456789';
  const bytes = randomBytes(length);
  let out = '';
  for (let i = 0; i < length; i++) out += chars[bytes[i] % chars.length];
  return out;
}
```
-/
def generateCode (bytes : List Nat) : String :=
  String.mk (bytes.map (Code.charAt chars (by decide)))

end Discount

/-! ### `src/lib/token.ts` -/

namespace Token

/-- The payload interface of `src/lib/token.ts`; `exp` is seconds since
epoch. -/
structure DownloadTokenPayload where
  typ : String
  exp : Nat
  jti : String
  name : Option String
deriving DecidableEq, Repr

/-- A `jsonwebtoken` blob: either a payload signed with a given secret,
or a malformed string that decodes to nothing. -/
inductive Jwt where
  | signed (payload : DownloadTokenPayload) (secret : String)
  | malformed (raw : String)
deriving DecidableEq, Repr

/-- `jwt.verify(token, secret)` at clock time `nowSec`
(`jsonwebtoken` checks decodability, then the signature, then rejects
once the clock reaches `exp`). -/
def jwtVerify (token : Jwt) (secret : String) (nowSec : Nat) :
    Except String DownloadTokenPayload :=
  match token with
  | .malformed _ => .error "jwt malformed"
  | .signed payload sigSecret =>
    if sigSecret ≠ secret then .error "invalid signature"
    else if payload.exp ≤ nowSec then .error "jwt expired"
    else .ok payload

/--
`createDownloadToken` from `src/lib/token.ts`:

```
export function createDownloadToken(ttlSeconds = 60, name?: string): string {
  const secret = process.env.JWT_SECRET;
  if (!secret) throw new Error('JWT_SECRET not set');
  const payload: DownloadTokenPayload = {
    typ: 'pass-download',
    exp: Math.floor(Date.now() / 1000) + ttlSeconds,
    jti: crypto.randomBytes(16).toString('hex'),
    name: name ? String(name).slice(0, 64) : undefined
  };
  return jwt.sign(payload, secret);
}
```

`envSecret` is `process.env.JWT_SECRET`, `nowMs` is `Date.now()`, `jti`
is the random hex string. -/
def createDownloadToken (envSecret : Option String) (nowMs : Nat)
    (jti : String) (ttlSeconds : Nat) (name : Option String) :
    Except String Jwt :=
  match envSecret with
  | none => .error "JWT_SECRET not set"
  | some secret =>
    .ok (.signed
      { typ := "pass-download"
        exp := nowMs / 1000 + ttlSeconds
        jti := jti
        name := match name with
          | some n => if n = "" then none else some (n.take 64)
          | none => none }
      secret)

/--
`verifyDownloadToken` from `src/lib/token.ts`:

```
export function verifyDownloadToken(token: string): DownloadTokenPayload {
  const secret = process.env.JWT_SECRET;
  if (!secret) throw new Error('JWT_SECRET not set');
  const decoded = jwt.verify(token, secret) as DownloadTokenPayload;
  if (decoded.typ !== 'pass-download') throw new Error('Invalid token type');
  return decoded;
}
```
-/
def verifyDownloadToken (envSecret : Option String) (nowMs : Nat)
    (token : Jwt) : Except String DownloadTokenPayload :=
  match envSecret with
  | none => .error "JWT_SECRET not set"
  | some secret =>
    match jwtVerify token secret (nowMs / 1000) with
    | .error e => .error e
    | .ok decoded =>
      if decoded.typ ≠ "pass-download" then .error "Invalid token type"
      else .ok decoded

/-- Observable outcome of `GET /api/pass/download`: the handler wraps
`verifyDownloadToken` in `try ... catch`, and every thrown error becomes
the one response `400 {"error":"Invalid or expired token"}`. -/
inductive DownloadResult where
  | passFile
  | invalidOrExpiredToken
deriving DecidableEq, Repr

/-- The `GET /api/pass/download` handler, observed up to whether the
pass bytes are released or the single opaque error is returned. -/
def downloadHandler (envSecret : Option String) (nowMs : Nat)
    (token : Jwt) : DownloadResult :=
  match verifyDownloadToken envSecret nowMs token with
  | .ok _ => .passFile
  | .error _ => .invalidOrExpiredToken

end Token

/-! ### The Express server core (`src/index.ts`) over the Prisma
`ConfirmationCode` table -/

namespace Server

/-- `enum ConfirmationStatus { UNUSED USED VOID }` from the Prisma
schema. -/
inductive ConfirmationStatus where
  | UNUSED
  | USED
  | VOID
deriving DecidableEq, Repr

/-- One row of the `ConfirmationCode` table (timestamps in epoch
milliseconds, `metadata` kept as an opaque optional string). -/
structure ConfirmationCode where
  id : Nat
  code : String
  status : ConfirmationStatus
  customerEmail : Option String
  stripePaymentId : Option String
  stripeSessionId : Option String
  expiresAt : Option Nat
  usedAt : Option Nat
  redeemAuditIp : Option String
  redeemAuditUa : Option String
  metadata : Option String
deriving DecidableEq, Repr

/-- The table, in insertion order. -/
abbrev DB := List ConfirmationCode

/-- Prisma error taxonomy as the handlers distinguish it: `P2002` is a
unique-constraint violation; everything else is rethrown. -/
inductive PrismaError where
  | P2002
deriving DecidableEq, Repr

/-- Does any row already hold this `code` value? (unique index
`ConfirmationCode_code_key`). -/
def hasCode (db : DB) (c : String) : Bool :=
  db.any (fun r => r.code == c)

/-- Does any row already hold this `stripePaymentId`? (nullable unique
index `ConfirmationCode_stripePaymentId_key`). -/
def hasPaymentId (db : DB) (p : String) : Bool :=
  db.any (fun r => r.stripePaymentId == some p)

/-- `prisma.confirmationCode.create({ data: row })`: the storage layer
checks both unique constraints atomically and either appends the row or
fails with `P2002`. -/
def create (db : DB) (row : ConfirmationCode) :
    Except PrismaError DB :=
  if hasCode db row.code then .error .P2002
  else
    match row.stripePaymentId with
    | some p => if hasPaymentId db p then .error .P2002 else .ok (db ++ [row])
    | none => .ok (db ++ [row])

/-- `prisma.confirmationCode.findUnique({ where: { code: c } })`. -/
def findUniqueByCode (db : DB) (c : String) : Option ConfirmationCode :=
  db.find? (fun r => r.code == c)

/-- `prisma.confirmationCode.findFirst({ where: { stripePaymentId: p } })`. -/
def findFirstByPaymentId (db : DB) (p : String) : Option ConfirmationCode :=
  db.find? (fun r => r.stripePaymentId == some p)

/-- `prisma.confirmationCode.update({ where: { id }, data })`: rewrite
the row with the matching primary key. -/
def updateById (db : DB) (rowId : Nat) (f : ConfirmationCode → ConfirmationCode) :
    DB :=
  db.map (fun r => if r.id = rowId then f r else r)

/-- JS truthiness of an optional string (`undefined`, `null` and `''`
are falsy). -/
def truthy : Option String → Option String
  | some s => if s = "" then none else some s
  | none => none

/-! #### `checkout.session.completed` webhook branch -/

/-- The fields the handler extracts from a verified
`checkout.session.completed` event. -/
structure CheckoutSessionEvent where
  paymentIntentId : Option String
  customerEmail : Option String
  sessionId : String
  metadata : Option String
deriving DecidableEq, Repr

/-- A call to `sendConfirmationEmail({ to, code })`; `toAddr` is the
`to` address. -/
structure EmailSend where
  toAddr : String
  code : String
deriving DecidableEq, Repr

/--
The `checkout.session.completed` branch of the Stripe webhook handler:

```
if (paymentIntentId) {
  const code = makeCode(6);
  try {
    await prisma.confirmationCode.create({ data: { code, status: 'UNUSED',
      customerEmail: customerEmail || null, stripePaymentId: paymentIntentId,
      stripeSessionId, metadata } });
  } catch (e) { if (e?.code !== 'P2002') throw e; }   // idempotent no-op
  if (customerEmail) {
    const row = await prisma.confirmationCode.findFirst({
      where: { stripePaymentId: paymentIntentId } });
    if (row) await sendConfirmationEmail({ to: customerEmail, code: row.code });
  }
}
```

`candidate` is the one `makeCode(6)` draw of this invocation and
`newId` the generated primary key.  Returns the new table and the list
of emails sent. -/
def handleCheckoutCompleted (db : DB) (ev : CheckoutSessionEvent)
    (candidate : String) (newId : Nat) : DB × List EmailSend :=
  match truthy ev.paymentIntentId with
  | none => (db, [])
  | some pi =>
    let row : ConfirmationCode :=
      { id := newId
        code := candidate
        status := .UNUSED
        customerEmail := truthy ev.customerEmail
        stripePaymentId := some pi
        stripeSessionId := some ev.sessionId
        expiresAt := none
        usedAt := none
        redeemAuditIp := none
        redeemAuditUa := none
        metadata := ev.metadata }
    let db1 := match create db row with
      | .ok db2 => db2
      | .error .P2002 => db
    match truthy ev.customerEmail with
    | some em =>
      match findFirstByPaymentId db1 pi with
      | some r => (db1, [{ toAddr := em, code := r.code }])
      | none => (db1, [])
    | none => (db1, [])

/-! #### `charge.refunded` / `charge.refund.updated` webhook branch -/

/--
The refund branch of the Stripe webhook handler:

```
if (paymentIntentId) {
  await prisma.confirmationCode.updateMany({
    where: { stripePaymentId: paymentIntentId, status: 'UNUSED' },
    data: { status: 'VOID' }
  });
}
```
-/
def handleChargeRefunded (db : DB) (paymentIntentId : Option String) : DB :=
  match truthy paymentIntentId with
  | none => db
  | some pi =>
    db.map (fun r =>
      if r.stripePaymentId = some pi ∧ r.status = .UNUSED then
        { r with status := .VOID }
      else r)

/-! #### `POST /api/demo/checkout` -/

/-- The row inserted by the demo checkout handler (`stripeSessionId` is
the synthesised `demo:...` string, no `stripePaymentId`). -/
def demoRow (cand : String) (email : Option String) (sid : String)
    (md : Option String) (newId : Nat) : ConfirmationCode :=
  { id := newId
    code := cand
    status := .UNUSED
    customerEmail := truthy email
    stripePaymentId := none
    stripeSessionId := some sid
    expiresAt := none
    usedAt := none
    redeemAuditIp := none
    redeemAuditUa := none
    metadata := md }

/--
The retry loop of `/api/demo/checkout`:

```
let code = '';
for (let i = 0; i < 5; i++) {
  code = makeCode(6);
  try { await prisma.confirmationCode.create({ data: ... }); break; }
  catch (e) { if (e?.code !== 'P2002') throw e; }
}
```

`attempts` supplies each iteration's `makeCode(6)` draw and generated
primary key; the `String` accumulator is the mutable `code` variable
(it keeps the last tried candidate even when every attempt fails). -/
def demoLoop (email : Option String) (sid : String) (md : Option String) :
    DB → List (String × Nat) → String → DB × String
  | db, [], code => (db, code)
  | db, (cand, newId) :: rest, _ =>
    match create db (demoRow cand email sid md newId) with
    | .ok db2 => (db2, cand)
    | .error .P2002 => demoLoop email sid md db rest cand

/-- The `/api/demo/checkout` handler: run the loop over at most five
candidates, then `if (!code) return 500` else respond with the code. -/
def demoCheckout (db : DB) (email : Option String) (sid : String)
    (md : Option String) (attempts : List (String × Nat)) :
    DB × Option String :=
  let out := demoLoop email sid md db (attempts.take 5) ""
  if out.2 = "" then (out.1, none) else (out.1, some out.2)

/-! #### `POST /api/redeem` -/

/-- The request body plus the audit headers the handler reads. -/
structure RedeemRequest where
  code : Option String
  email : Option String
  name : Option String
  ip : String
  ua : String
deriving DecidableEq, Repr

/-- The handler's error responses:
`MissingCode` = `400 Missing code`, `NotFound` = `404 Invalid code`,
`AlreadyConsumedOrVoid` = `400 Code already used or void`,
`Expired` = `400 Code expired`, `EmailMismatch` = `400 Email does not
match`. -/
inductive RedeemError where
  | MissingCode
  | NotFound
  | AlreadyConsumedOrVoid
  | Expired
  | EmailMismatch
deriving DecidableEq, Repr

/-- The observable outcome of one redeem call: the minted token on
success, one of the error responses, or the `500` produced when token
minting throws after the row was already updated. -/
inductive RedeemOutcome where
  | success (token : Token.Jwt)
  | failure (e : RedeemError)
  | serverError
deriving DecidableEq, Repr

/--
The read-and-validate phase of `POST /api/redeem`, exactly the handler
code up to (not including) the `prisma.$transaction` update:

```
const { code, email, name } = req.body || {};
if (!code || typeof code !== 'string') return res.status(400)...;
const cleaned = sanitizeCode(code);
const row = await prisma.confirmationCode.findUnique({ where: { code: cleaned } });
if (!row) return res.status(404).json({ error: 'Invalid code' });
if (row.status !== 'UNUSED') return ...'Code already used or void';
if (row.expiresAt && new Date(row.expiresAt).getTime() < Date.now()) return ...'Code expired';
if (email && row.customerEmail && email.toLowerCase() !== row.customerEmail.toLowerCase())
  return ...'Email does not match';
```

Returns the row snapshot that passed validation.  Note the status check
is performed on this snapshot; the subsequent update (phase 2) is keyed
only on `row.id`, not conditioned on the current status. -/
def redeemPhase1 (db : DB) (req : RedeemRequest) (nowMs : Nat) :
    Except RedeemError ConfirmationCode :=
  match truthy req.code with
  | none => .error .MissingCode
  | some c =>
    let cleaned := Code.sanitizeCode c
    match findUniqueByCode db cleaned with
    | none => .error .NotFound
    | some row =>
      if row.status ≠ .UNUSED then .error .AlreadyConsumedOrVoid
      else if (match row.expiresAt with
               | some e => decide (e < nowMs)
               | none => false) then .error .Expired
      else
        match truthy req.email, truthy row.customerEmail with
        | some em, some bound =>
          if Code.jsToLowerCase em ≠ Code.jsToLowerCase bound then
            .error .EmailMismatch
          else .ok row
        | _, _ => .ok row

/--
The write phase of `POST /api/redeem`:

```
await prisma.$transaction([
  prisma.confirmationCode.update({
    where: { id: row.id },
    data: { status: 'USED', usedAt: new Date(), redeemAuditIp: ip, redeemAuditUa: ua }
  })
]);
```

The update is keyed on `row.id` alone and unconditionally sets
`status = USED`. -/
def redeemPhase2 (db : DB) (rowId : Nat) (nowMs : Nat) (ip ua : String) :
    DB :=
  updateById db rowId (fun r =>
    { r with
        status := .USED
        usedAt := some nowMs
        redeemAuditIp := some ip
        redeemAuditUa := some ua })

/-- The tail of the handler: compute
`safeName = name.trim().slice(0, 64)` and mint the download token with
`ttl = 60`; a throw from `createDownloadToken` falls into the error
middleware as a `500`.  `jsTrim` models JS `String.prototype.trim`. -/
def jsTrim (s : String) : String :=
  String.mk (((s.data.dropWhile Char.isWhitespace).reverse.dropWhile
    Char.isWhitespace).reverse)

/-- Mint the response token from the request's optional display name. -/
def mintOutcome (envSecret : Option String) (nowMs : Nat) (jti : String)
    (name : Option String) : RedeemOutcome :=
  let safeName := name.map (fun n => (jsTrim n).take 64)
  match Token.createDownloadToken envSecret nowMs jti 60 safeName with
  | .ok t => .success t
  | .error _ => .serverError

/-- The whole `POST /api/redeem` handler run to completion as one
sequential operation: phase 1 (read and validate), then phase 2 (update
by id), then token minting. -/
def redeem (db : DB) (req : RedeemRequest) (nowMs : Nat)
    (envSecret : Option String) (jti : String) : DB × RedeemOutcome :=
  match redeemPhase1 db req nowMs with
  | .error e => (db, .failure e)
  | .ok row =>
    (redeemPhase2 db row.id nowMs req.ip req.ua,
     mintOutcome envSecret nowMs jti req.name)

/-- Two concurrent `POST /api/redeem` calls under the interleaving in
which both phase-1 reads happen before either phase-2 write (both
`findUnique` round-trips return before either `update` commits).  Each
call's observable outcome is computed from its own phase-1 snapshot,
exactly as the handler does. -/
def interleavedDoubleRedeem (db : DB) (req1 req2 : RedeemRequest)
    (nowMs : Nat) (envSecret : Option String) (jti1 jti2 : String) :
    DB × RedeemOutcome × RedeemOutcome :=
  match redeemPhase1 db req1 nowMs, redeemPhase1 db req2 nowMs with
  | .ok r1, .ok r2 =>
    let db1 := redeemPhase2 db r1.id nowMs req1.ip req1.ua
    let db2 := redeemPhase2 db1 r2.id nowMs req2.ip req2.ua
    (db2, mintOutcome envSecret nowMs jti1 req1.name,
          mintOutcome envSecret nowMs jti2 req2.name)
  | .ok r1, .error e2 =>
    (redeemPhase2 db r1.id nowMs req1.ip req1.ua,
     mintOutcome envSecret nowMs jti1 req1.name, .failure e2)
  | .error e1, .ok r2 =>
    (redeemPhase2 db r2.id nowMs req2.ip req2.ua,
     .failure e1, mintOutcome envSecret nowMs jti2 req2.name)
  | .error e1, .error e2 => (db, .failure e1, .failure e2)

/-- Projection of a redeem outcome onto the validation verdict: `some e`
when the call answered with error response `e`, `none` when validation
passed (a token was minted, or minting itself threw). -/
def outcomeError : RedeemOutcome → Option RedeemError
  | .failure e => some e
  | .success _ => none
  | .serverError => none

/--
Modelled from the spec (§4.2 Consumption, validation order): the
verdict the specification prescribes for a redeem request carrying the
submitted code string `c`.

1. code not found after normalization → `NotFound`;
2. status not `UNUSED` → `AlreadyConsumedOrVoid`;
3. `expiresAt` present and in the past → `Expired`;
4. email provided and a bound email present and the two differ
   case-insensitively → `EmailMismatch`;
otherwise the request passes validation (`none`). -/
def redeemValidationSpec (db : DB) (c : String) (email : Option String)
    (nowMs : Nat) : Option RedeemError :=
  match findUniqueByCode db (Code.sanitizeCode c) with
  | none => some .NotFound
  | some row =>
    if row.status ≠ .UNUSED then some .AlreadyConsumedOrVoid
    else if (match row.expiresAt with
             | some e => decide (e < nowMs)
             | none => false) then some .Expired
    else
      match truthy email, truthy row.customerEmail with
      | some em, some bound =>
        if Code.jsToLowerCase em ≠ Code.jsToLowerCase bound then
          some .EmailMismatch
        else none
      | _, _ => none

end Server

end WalletPass

/-! ## Shared helper lemmas -/

open WalletPass

/-- A modular index into a nonempty list lands in the list. -/
theorem charAt_mem (l : List Char) (h : 0 < l.length) (b : Nat) :
    Code.charAt l h b ∈ l := by
  unfold Code.charAt
  exact List.get_mem l _ _

/-- Every generator-alphabet character is an uppercase fixed point of
the JS upper-casing map. -/
theorem jsUpperChar_fixed_on_ALPHABET :
    ∀ c ∈ Code.ALPHABET, Code.jsUpperChar c = c := by decide

/-- Every generator-alphabet character passes both sanitization
filters. -/
theorem ALPHABET_sanitize_invariant :
    ∀ c ∈ Code.ALPHABET, Code.isAZ09 c = true ∧ Code.isAmbig c = false := by
  decide

/-- A character kept by the `[^A-Z0-9]` filter is a fixed point of the
JS upper-casing map (its code is at most 90, below the lowercase
range starting at 97). -/
theorem jsUpperChar_fixed_of_isAZ09 (c : Char)
    (h : Code.isAZ09 c = true) : Code.jsUpperChar c = c := by
  simp only [Code.isAZ09, Bool.or_eq_true, Bool.and_eq_true,
    decide_eq_true_eq] at h
  unfold Code.jsUpperChar
  rw [if_neg]
  omega

/-- Characters of a sanitized string pass both filters. -/
theorem sanitizeCode_chars (s : String) :
    ∀ c ∈ (Code.sanitizeCode s).data, Code.isAZ09 c = true ∧
      Code.isAmbig c = false := by
  intro c hc
  simp only [Code.sanitizeCode] at hc
  have hc2 := List.mem_filter.mp hc
  have hc1 := List.mem_filter.mp hc2.1
  refine ⟨hc1.2, ?_⟩
  have := hc2.2
  simpa using this

/-- Sanitization fixes any string whose characters pass both filters. -/
theorem sanitizeCode_fixed (l : List Char)
    (h : ∀ c ∈ l, Code.isAZ09 c = true ∧ Code.isAmbig c = false) :
    Code.sanitizeCode (String.mk l) = String.mk l := by
  unfold Code.sanitizeCode Code.jsToUpperCase
  have hmap : l.map Code.jsUpperChar = l := by
    calc l.map Code.jsUpperChar = l.map id := by
          apply List.map_congr_left
          intro c hc
          exact jsUpperChar_fixed_of_isAZ09 c (h c hc).1
      _ = l := List.map_id l
  simp only [hmap]
  have h1 : l.filter Code.isAZ09 = l :=
    List.filter_eq_self.mpr (fun c hc => (h c hc).1)
  rw [h1]
  have h2 : l.filter (fun c => !(Code.isAmbig c)) = l :=
    List.filter_eq_self.mpr (fun c hc => by simp [(h c hc).2])
  rw [h2]

/-- Every character of a `makeCode` output lies in the generator
alphabet. -/
theorem makeCode_chars (bytes : List Nat) :
    ∀ c ∈ (Code.makeCode bytes).data, c ∈ Code.ALPHABET := by
  intro c hc
  simp only [Code.makeCode, Code.jsToUpperCase, List.map_map] at hc
  obtain ⟨b, _, rfl⟩ := List.mem_map.mp hc
  have hmem : Code.charAt Code.ALPHABET (by decide) b ∈ Code.ALPHABET :=
    charAt_mem _ _ _
  rw [Function.comp_apply, jsUpperChar_fixed_on_ALPHABET _ hmem]
  exact hmem

/-! ## C8 — code generator: length, alphabet, uniformity -/

/-- C8 counterexample: the claim fails on the code in two ways.  The
length-6 generator `makeCode` maps the 256 byte values onto its
30-character alphabet by `byte % 30`, so `'A'` (alphabet index 0) is
selected by 9 byte values while `'9'` (index 29) is selected by only 8
— the selection is not uniform in the claimed sense.  And the
length-12 variant `generateCode` uses the 32-character alphabet
`ABCDEFGHJKLMNPQRSTUVWXYZ23456789`, which contains the visually
ambiguous character `'L'`: byte value 10 yields the output `"L"`. -/
theorem C8_counterexample :
    ((List.range 256).countP
        (fun b => Code.charAt Code.ALPHABET (by decide) b == 'A')) = 9 ∧
    ((List.range 256).countP
        (fun b => Code.charAt Code.ALPHABET (by decide) b == '9')) = 8 ∧
    'L' ∈ Discount.chars ∧
    Discount.generateCode [10] = "L" := by decide

/-- C8 (amended): both generators return a string of exactly the
requested length (one character per random byte).  `makeCode` draws
from the fixed 30-character alphabet `ABCDEFGHJKMNPQRSTVWXYZ23456789`,
which excludes `0`, `O`, `1`, `I` and `L` (and also `U`); its selection
is only near-uniform, since 256 is not a multiple of 30: the first 16
alphabet characters are each selected by 9 of the 256 byte values and
the remaining 14 by 8.  `generateCode` draws from the 32-character
alphabet `ABCDEFGHJKLMNPQRSTUVWXYZ23456789`, which excludes `0`, `O`,
`1` and `I` but contains `L`; its selection is exactly uniform (each
character selected by 8 of the 256 byte values, as 32 divides 256). -/
theorem C8_amended :
    (∀ bytes : List Nat,
      (Code.makeCode bytes).length = bytes.length ∧
      ∀ c ∈ (Code.makeCode bytes).data, c ∈ Code.ALPHABET) ∧
    (∀ bytes : List Nat,
      (Discount.generateCode bytes).length = bytes.length ∧
      ∀ c ∈ (Discount.generateCode bytes).data, c ∈ Discount.chars) ∧
    ('0' ∉ Code.ALPHABET ∧ 'O' ∉ Code.ALPHABET ∧ '1' ∉ Code.ALPHABET ∧
      'I' ∉ Code.ALPHABET ∧ 'L' ∉ Code.ALPHABET ∧ 'U' ∉ Code.ALPHABET) ∧
    ('0' ∉ Discount.chars ∧ 'O' ∉ Discount.chars ∧ '1' ∉ Discount.chars ∧
      'I' ∉ Discount.chars ∧ 'L' ∈ Discount.chars) ∧
    ((Code.ALPHABET.take 16).all (fun c =>
      (List.range 256).countP
        (fun b => Code.charAt Code.ALPHABET (by decide) b == c) == 9)) = true ∧
    ((Code.ALPHABET.drop 16).all (fun c =>
      (List.range 256).countP
        (fun b => Code.charAt Code.ALPHABET (by decide) b == c) == 8)) = true ∧
    (Discount.chars.all (fun c =>
      (List.range 256).countP
        (fun b => Code.charAt Discount.chars (by decide) b == c) == 8)) = true := by
  refine ⟨?_, ?_, by decide, by decide, by decide, by decide, by decide⟩
  · intro bytes
    refine ⟨?_, makeCode_chars bytes⟩
    simp [Code.makeCode, Code.jsToUpperCase, String.length]
  · intro bytes
    constructor
    · simp [Discount.generateCode, String.length]
    · intro c hc
      simp only [Discount.generateCode] at hc
      obtain ⟨b, _, rfl⟩ := List.mem_map.mp hc
      exact charAt_mem _ _ _

/-- C8 witness: instantiating the amended theorem at the byte list
`[0]` shows the single output character of `makeCode [0]` lies in the
restricted alphabet. -/
theorem C8_amended_witness :
    'A' ∈ (Code.makeCode [0]).data ∧ 'A' ∈ Code.ALPHABET :=
  ⟨by decide, (C8_amended.1 [0]).2 'A' (by decide)⟩

/-! ## C9 — sanitization vs. generator alphabet -/

/-- C9 counterexample: the claim's final conjunct fails.  `sanitizeCode`
leaves the character `U` untouched (`sanitizeCode "U" = "U"`), yet `U`
is not in the purchase-code generator's alphabet
`ABCDEFGHJKMNPQRSTVWXYZ23456789`, so a normalized output need not
consist only of characters of the generator's alphabet. -/
theorem C9_counterexample :
    Code.sanitizeCode "U" = "U" ∧ 'U' ∉ Code.ALPHABET := by decide

/-- C9 (amended): `sanitizeCode` upper-cases its input, removes every
character outside `A`–`Z`/`0`–`9`, then removes the ambiguous
characters `O`, `0`, `I`, `1`, `L`.  It is idempotent, and every
string produced by the purchase-code generator is a fixed point of
normalization.  Every normalized output consists only of uppercase
letters and digits with the ambiguous characters removed — a strict
superset of the generator's alphabet, because the generator
additionally never emits `U` while normalization keeps it. -/
theorem C9_amended :
    (∀ s, Code.sanitizeCode (Code.sanitizeCode s) = Code.sanitizeCode s) ∧
    (∀ bytes, Code.sanitizeCode (Code.makeCode bytes) = Code.makeCode bytes) ∧
    (∀ s, ∀ c ∈ (Code.sanitizeCode s).data,
      Code.isAZ09 c = true ∧ Code.isAmbig c = false) ∧
    (∀ c ∈ Code.ALPHABET, Code.isAZ09 c = true ∧ Code.isAmbig c = false) ∧
    (Code.isAZ09 'U' = true ∧ Code.isAmbig 'U' = false ∧
      'U' ∉ Code.ALPHABET) := by
  refine ⟨?_, ?_, sanitizeCode_chars, ALPHABET_sanitize_invariant, by decide⟩
  · intro s
    have := sanitizeCode_fixed (Code.sanitizeCode s).data (sanitizeCode_chars s)
    simpa using this
  · intro bytes
    have hchars : ∀ c ∈ (Code.makeCode bytes).data,
        Code.isAZ09 c = true ∧ Code.isAmbig c = false :=
      fun c hc => ALPHABET_sanitize_invariant c (makeCode_chars bytes c hc)
    have := sanitizeCode_fixed (Code.makeCode bytes).data hchars
    simpa using this

/-- C9 witness: the amended theorem instantiated at the input
`" ab-c234 oil "` (idempotence at a concrete string) and at the bytes
`[0, 29]` (a concrete generated code is a fixed point). -/
theorem C9_amended_witness :
    Code.sanitizeCode (Code.sanitizeCode " ab-c234 oil ") =
      Code.sanitizeCode " ab-c234 oil " ∧
    Code.sanitizeCode (Code.makeCode [0, 29]) = Code.makeCode [0, 29] ∧
    ('A' ∈ Code.ALPHABET → Code.isAZ09 'A' = true ∧ Code.isAmbig 'A' = false) :=
  ⟨C9_amended.1 " ab-c234 oil ", C9_amended.2.1 [0, 29],
    fun h => C9_amended.2.2.2.1 'A' h⟩

/-! ## C7 — download-credential verification collapses all failures -/

/-- C7: verification of a presented download credential checks the
signature, the expiry, and that the purpose tag equals
`"pass-download"`, and the download handler surfaces every failure —
malformed token, wrong signing secret, expired token (including one
minted with a 1-second ttl and presented 2 seconds later), wrong
purpose tag — as the single outcome `invalidOrExpiredToken`; the
handler releases the pass if and only if all three checks pass, so no
externally visible signal distinguishes which check failed. -/
theorem C7_verifier_single_failure_outcome
    (secret raw jti : String) (nowMs t0 : Nat)
    (p : Token.DownloadTokenPayload) (s0 : String) (nm : Option String) :
    (Token.downloadHandler (some secret) nowMs (.malformed raw) =
      .invalidOrExpiredToken) ∧
    (s0 ≠ secret →
      Token.downloadHandler (some secret) nowMs (.signed p s0) =
        .invalidOrExpiredToken) ∧
    (p.exp ≤ nowMs / 1000 →
      Token.downloadHandler (some secret) nowMs (.signed p secret) =
        .invalidOrExpiredToken) ∧
    (p.typ ≠ "pass-download" →
      Token.downloadHandler (some secret) nowMs (.signed p secret) =
        .invalidOrExpiredToken) ∧
    (Token.downloadHandler (some secret) nowMs (.signed p s0) = .passFile ↔
      (s0 = secret ∧ nowMs / 1000 < p.exp ∧ p.typ = "pass-download")) ∧
    (∀ tok, Token.createDownloadToken (some secret) t0 jti 1 nm = .ok tok →
      Token.downloadHandler (some secret) (t0 + 2000) tok =
        .invalidOrExpiredToken) := by
  refine ⟨rfl, ?_, ?_, ?_, ?_, ?_⟩
  · intro h
    simp [Token.downloadHandler, Token.verifyDownloadToken, Token.jwtVerify, h]
  · intro h
    simp [Token.downloadHandler, Token.verifyDownloadToken, Token.jwtVerify, h]
  · intro h
    by_cases hexp : p.exp ≤ nowMs / 1000 <;>
      simp [Token.downloadHandler, Token.verifyDownloadToken,
        Token.jwtVerify, h, hexp]
  · constructor
    · intro h
      by_cases hs : s0 = secret
      · subst hs
        by_cases hexp : p.exp ≤ nowMs / 1000
        · simp [Token.downloadHandler, Token.verifyDownloadToken,
            Token.jwtVerify, hexp] at h
        · by_cases htyp : p.typ = "pass-download"
          · exact ⟨rfl, by omega, htyp⟩
          · simp [Token.downloadHandler, Token.verifyDownloadToken,
              Token.jwtVerify, hexp, htyp] at h
      · simp [Token.downloadHandler, Token.verifyDownloadToken,
          Token.jwtVerify, hs] at h
    · rintro ⟨rfl, hexp, htyp⟩
      have hexp2 : ¬(p.exp ≤ nowMs / 1000) := by omega
      simp [Token.downloadHandler, Token.verifyDownloadToken,
        Token.jwtVerify, hexp2, htyp]
  · intro tok htok
    simp only [Token.createDownloadToken, Except.ok.injEq] at htok
    subst htok
    have hnow : (t0 + 2000) / 1000 = t0 / 1000 + 2 := by omega
    have hexp : t0 / 1000 + 1 ≤ (t0 + 2000) / 1000 := by omega
    simp [Token.downloadHandler, Token.verifyDownloadToken,
      Token.jwtVerify, hexp]

/-- C7 witness: the theorem instantiated at a concrete secret, clock,
payload and token; the scenario conjunct is applied to the token
actually minted with a 1-second ttl and verified 2 seconds later. -/
theorem C7_witness :
    Token.downloadHandler (some "s3cret") 5000
      (.signed { typ := "pass-download", exp := 99, jti := "j", name := none }
        "wrong") = .invalidOrExpiredToken ∧
    Token.downloadHandler (some "s3cret") 5000
      (.signed { typ := "pass-download", exp := 6, jti := "j", name := none }
        "wrong") = .invalidOrExpiredToken ∧
    ∃ tok, Token.createDownloadToken (some "s3cret") 5000 "j" 1 none =
        .ok tok ∧
      Token.downloadHandler (some "s3cret") 7000 tok =
        .invalidOrExpiredToken := by
  refine ⟨?_, ?_, ?_⟩
  · exact (C7_verifier_single_failure_outcome "s3cret" "" "j" 5000 5000
      { typ := "pass-download", exp := 99, jti := "j", name := none }
      "wrong" none).2.1 (by decide)
  · exact (C7_verifier_single_failure_outcome "s3cret" "" "j" 5000 5000
      { typ := "pass-download", exp := 6, jti := "j", name := none }
      "wrong" none).2.1 (by decide)
  · refine ⟨Token.Jwt.signed ⟨"pass-download", 6, "j", none⟩ "s3cret",
      rfl, ?_⟩
    exact (C7_verifier_single_failure_outcome "s3cret" "" "j" 5000 5000
      { typ := "pass-download", exp := 6, jti := "j", name := none }
      "wrong" none).2.2.2.2.2 _ rfl

/-! ## C3 — redeem validation order and outcomes -/

/-- The validation verdict of a full redeem run is the verdict of its
read-and-validate phase: minting never produces one of the four error
responses. -/
theorem outcomeError_redeem (db : Server.DB) (req : Server.RedeemRequest)
    (nowMs : Nat) (envSecret : Option String) (jti : String) :
    Server.outcomeError (Server.redeem db req nowMs envSecret jti).2 =
      (match Server.redeemPhase1 db req nowMs with
       | .error e => some e
       | .ok _ => none) := by
  unfold Server.redeem
  cases Server.redeemPhase1 db req nowMs with
  | error e => rfl
  | ok row =>
    simp only [Server.mintOutcome]
    cases Token.createDownloadToken envSecret nowMs jti 60
        (req.name.map fun n => (Server.jsTrim n).take 64) <;> rfl

/-- C3: for every redeem request that submits a (nonempty) code string,
the handler's validation verdict coincides with the specification's
cascade `redeemValidationSpec`: lookup of the sanitized code failing
yields `NotFound`; a row whose status is not `UNUSED` yields
`AlreadyConsumedOrVoid`; a present, past `expiresAt` yields `Expired`;
a provided email that differs case-insensitively from a bound
`customerEmail` yields `EmailMismatch`; and a request with no email, or
against a row with no bound email, or with a case-insensitive match,
passes the email check (verdict `none`). -/
theorem C3_validation_order (db : Server.DB) (req : Server.RedeemRequest)
    (nowMs : Nat) (envSecret : Option String) (jti : String) (c : String)
    (hc : req.code = some c) (hne : c ≠ "") :
    Server.outcomeError (Server.redeem db req nowMs envSecret jti).2 =
      Server.redeemValidationSpec db c req.email nowMs := by
  rw [outcomeError_redeem]
  have htruthy : Server.truthy req.code = some c := by
    simp [Server.truthy, hc, hne]
  unfold Server.redeemPhase1 Server.redeemValidationSpec
  rw [htruthy]
  simp only
  cases hfind : Server.findUniqueByCode db (Code.sanitizeCode c) with
  | none => rfl
  | some row =>
    by_cases hstat : row.status = Server.ConfirmationStatus.UNUSED
    · simp only [hstat, ne_eq, not_true_eq_false, if_false, ite_false]
      cases hexp : (match row.expiresAt with
        | some e => decide (e < nowMs)
        | none => false) with
      | true => rfl
      | false =>
        simp only [Bool.false_eq_true, if_false, ite_false]
        cases hem : Server.truthy req.email with
        | none => cases hbd : Server.truthy row.customerEmail <;> rfl
        | some em =>
          cases hbd : Server.truthy row.customerEmail with
          | none => rfl
          | some bound =>
            by_cases hmm : Code.jsToLowerCase em ≠ Code.jsToLowerCase bound <;>
              simp [hmm]
    · simp [hstat]

/-- C3 witness: the theorem applied to the empty table at the concrete
code string `"NOPE"` — the sanitized code is absent, and both sides
deliver the `NotFound` verdict. -/
theorem C3_witness :
    Server.outcomeError
      (Server.redeem []
        { code := some "NOPE", email := none, name := none,
          ip := "", ua := "" } 0 (some "s") "j").2 =
      Server.redeemValidationSpec [] "NOPE" none 0 :=
  C3_validation_order [] _ 0 (some "s") "j" "NOPE" rfl (by decide)

/-! ## C10 — failed redeems write nothing and mint nothing -/

/-- C10: whenever a redeem call answers with any error response
(`MissingCode`, `NotFound`, `AlreadyConsumedOrVoid`, `Expired`,
`EmailMismatch`), the stored table is returned exactly as it was — no
row is modified in any field — and the outcome carries no download
credential; conversely a download credential is only ever carried by
the success outcome, which is produced after the update on the
validated row. -/
theorem C10_failure_leaves_store_unchanged (db : Server.DB)
    (req : Server.RedeemRequest) (nowMs : Nat) (envSecret : Option String)
    (jti : String) (e : Server.RedeemError) :
    ((Server.redeem db req nowMs envSecret jti).2 = .failure e →
      (Server.redeem db req nowMs envSecret jti).1 = db) ∧
    (∀ tok, (Server.redeem db req nowMs envSecret jti).2 = .success tok →
      (Server.redeem db req nowMs envSecret jti).2 ≠ .failure e) := by
  unfold Server.redeem
  cases hph : Server.redeemPhase1 db req nowMs with
  | error e2 => exact ⟨fun _ => rfl, fun tok htok => by simp at htok⟩
  | ok row =>
    constructor
    · intro hfail
      exfalso
      revert hfail
      simp only [Server.mintOutcome]
      cases Token.createDownloadToken envSecret nowMs jti 60
          (req.name.map fun n => (Server.jsTrim n).take 64) <;> simp
    · intro tok htok
      simp only [Server.mintOutcome]
      cases Token.createDownloadToken envSecret nowMs jti 60
          (req.name.map fun n => (Server.jsTrim n).take 64) <;> simp

/-- C10 witness: a concrete failing redeem (unknown code on the empty
table) does answer with `NotFound`, and the theorem applied there shows
the table is left empty. -/
theorem C10_witness :
    (Server.redeem []
      { code := some "NOPE", email := none, name := none,
        ip := "", ua := "" } 0 (some "s") "j").2 =
        .failure .NotFound ∧
    (Server.redeem []
      { code := some "NOPE", email := none, name := none,
        ip := "", ua := "" } 0 (some "s") "j").1 = ([] : Server.DB) :=
  ⟨by decide,
   (C10_failure_leaves_store_unchanged [] _ 0 (some "s") "j" .NotFound).1
     (by decide)⟩

/-! ## C6 — refund voids only UNUSED rows of that payment -/

/-- C6: processing a verified refund event carrying payment reference
`pi` rewrites the table pointwise — same length, same order — such
that a row bound to `pi` in status `UNUSED` becomes the same row with
status `VOID` (every other field untouched), a row in status `USED` is
returned entirely unchanged even when bound to `pi`, a row bound to a
different (or no) payment reference is returned entirely unchanged,
and when no row matches the reference the table is returned as it was
(absence of a match is not an error). -/
theorem C6_refund_effects (db : Server.DB) (pi : String) (hpi : pi ≠ "") :
    (Server.handleChargeRefunded db (some pi)).length = db.length ∧
    (∀ (i : Nat) (r : Server.ConfirmationCode), db[i]? = some r →
      ((r.stripePaymentId = some pi ∧ r.status = .UNUSED) →
        (Server.handleChargeRefunded db (some pi))[i]? =
          some { r with status := .VOID }) ∧
      (r.status = .USED →
        (Server.handleChargeRefunded db (some pi))[i]? = some r) ∧
      (r.stripePaymentId ≠ some pi →
        (Server.handleChargeRefunded db (some pi))[i]? = some r)) ∧
    ((∀ r ∈ db, r.stripePaymentId ≠ some pi) →
      Server.handleChargeRefunded db (some pi) = db) := by
  have hmap : Server.handleChargeRefunded db (some pi) =
      db.map (fun r =>
        if r.stripePaymentId = some pi ∧ r.status = .UNUSED then
          { r with status := .VOID }
        else r) := by
    unfold Server.handleChargeRefunded
    simp [Server.truthy, hpi]
  refine ⟨by rw [hmap]; simp, ?_, ?_⟩
  · intro i r hr
    rw [hmap, List.getElem?_map, hr]
    refine ⟨fun hcond => by simp [hcond], fun hused => ?_, fun hother => ?_⟩
    · have : ¬(r.stripePaymentId = some pi ∧ r.status = .UNUSED) := by
        rintro ⟨_, hu⟩
        rw [hused] at hu
        exact Server.ConfirmationStatus.noConfusion hu
      simp [this]
    · have : ¬(r.stripePaymentId = some pi ∧ r.status = .UNUSED) := by
        rintro ⟨hp, _⟩
        exact hother hp
      simp [this]
  · intro hnone
    rw [hmap]
    calc db.map (fun r =>
          if r.stripePaymentId = some pi ∧ r.status = .UNUSED then
            { r with status := .VOID }
          else r) = db.map id := by
            apply List.map_congr_left
            intro r hr
            have : ¬(r.stripePaymentId = some pi ∧ r.status = .UNUSED) := by
              rintro ⟨hp, _⟩
              exact hnone r hr hp
            simp [this]
      _ = db := List.map_id db

/-- C6 witness: a concrete two-row table — an `UNUSED` row bound to the
refunded payment becomes `VOID`, while a `USED` row bound to the same
payment is untouched. -/
theorem C6_witness :
    ((Server.handleChargeRefunded
      [{ id := 1, code := "ABC234", status := .UNUSED,
         customerEmail := none, stripePaymentId := some "pi_1",
         stripeSessionId := none, expiresAt := none, usedAt := none,
         redeemAuditIp := none, redeemAuditUa := none, metadata := none },
       { id := 2, code := "XYZ789", status := .USED,
         customerEmail := none, stripePaymentId := some "pi_1",
         stripeSessionId := none, expiresAt := none, usedAt := some 7,
         redeemAuditIp := none, redeemAuditUa := none, metadata := none }]
      (some "pi_1"))[0]?.map (fun r => r.status) = some .VOID) ∧
    ((Server.handleChargeRefunded
      [{ id := 1, code := "ABC234", status := .UNUSED,
         customerEmail := none, stripePaymentId := some "pi_1",
         stripeSessionId := none, expiresAt := none, usedAt := none,
         redeemAuditIp := none, redeemAuditUa := none, metadata := none },
       { id := 2, code := "XYZ789", status := .USED,
         customerEmail := none, stripePaymentId := some "pi_1",
         stripeSessionId := none, expiresAt := none, usedAt := some 7,
         redeemAuditIp := none, redeemAuditUa := none, metadata := none }]
      (some "pi_1"))[1]? =
      some { id := 2, code := "XYZ789", status := .USED,
             customerEmail := none, stripePaymentId := some "pi_1",
             stripeSessionId := none, expiresAt := none, usedAt := some 7,
             redeemAuditIp := none, redeemAuditUa := none,
             metadata := none }) := by
  constructor
  · have h := ((C6_refund_effects
      [{ id := 1, code := "ABC234", status := .UNUSED,
         customerEmail := none, stripePaymentId := some "pi_1",
         stripeSessionId := none, expiresAt := none, usedAt := none,
         redeemAuditIp := none, redeemAuditUa := none, metadata := none },
       { id := 2, code := "XYZ789", status := .USED,
         customerEmail := none, stripePaymentId := some "pi_1",
         stripeSessionId := none, expiresAt := none, usedAt := some 7,
         redeemAuditIp := none, redeemAuditUa := none, metadata := none }]
      "pi_1" (by decide)).2.1 0 _ rfl).1 ⟨rfl, rfl⟩
    rw [h]
    rfl
  · exact ((C6_refund_effects
      [{ id := 1, code := "ABC234", status := .UNUSED,
         customerEmail := none, stripePaymentId := some "pi_1",
         stripeSessionId := none, expiresAt := none, usedAt := none,
         redeemAuditIp := none, redeemAuditUa := none, metadata := none },
       { id := 2, code := "XYZ789", status := .USED,
         customerEmail := none, stripePaymentId := some "pi_1",
         stripeSessionId := none, expiresAt := none, usedAt := some 7,
         redeemAuditIp := none, redeemAuditUa := none, metadata := none }]
      "pi_1" (by decide)).2.1 1 _ rfl).2.1 rfl

/-! ## C5 — USED and VOID are terminal -/

/-- A row snapshot accepted by the redeem read-and-validate phase is a
member of the table and has status `UNUSED`. -/
theorem redeemPhase1_ok_mem (db : Server.DB) (req : Server.RedeemRequest)
    (nowMs : Nat) (row : Server.ConfirmationCode)
    (h : Server.redeemPhase1 db req nowMs = .ok row) :
    row ∈ db ∧ row.status = .UNUSED := by
  unfold Server.redeemPhase1 at h
  cases htr : Server.truthy req.code with
  | none => rw [htr] at h; exact absurd h (by simp)
  | some c =>
    rw [htr] at h
    simp only at h
    cases hfind : Server.findUniqueByCode db (Code.sanitizeCode c) with
    | none => rw [hfind] at h; exact absurd h (by simp)
    | some row2 =>
      rw [hfind] at h
      have hmem : row2 ∈ db := List.mem_of_find?_eq_some hfind
      by_cases hstat : row2.status = Server.ConfirmationStatus.UNUSED
      · simp only [hstat, ne_eq, not_true_eq_false, if_false, ite_false] at h
        cases hexp : (match row2.expiresAt with
          | some e => decide (e < nowMs)
          | none => false) with
        | true => rw [hexp] at h; exact absurd h (by simp)
        | false =>
          rw [hexp] at h
          simp only [Bool.false_eq_true, if_false, ite_false] at h
          cases hem : Server.truthy req.email with
          | none =>
            rw [hem] at h
            cases hbd : Server.truthy row2.customerEmail <;> rw [hbd] at h <;>
              simp only [Except.ok.injEq] at h <;>
              exact h ▸ ⟨hmem, hstat⟩
          | some em =>
            rw [hem] at h
            cases hbd : Server.truthy row2.customerEmail with
            | none =>
              rw [hbd] at h
              simp only [Except.ok.injEq] at h
              exact h ▸ ⟨hmem, hstat⟩
            | some bound =>
              rw [hbd] at h
              by_cases hmm : Code.jsToLowerCase em ≠ Code.jsToLowerCase bound
              · simp only [hmm, if_true, ite_true] at h
                exact absurd h (by simp)
              · simp only [hmm, if_false, ite_false] at h
                simp only [Except.ok.injEq] at h
                exact h ▸ ⟨hmem, hstat⟩
      · simp only [hstat, ne_eq, not_false_eq_true, if_true, ite_true] at h
        exact absurd h (by simp)

/-- On a table whose primary keys are distinct, two member rows with
the same id are the same row. -/
theorem row_eq_of_id_eq (db : Server.DB)
    (hnd : (db.map (fun r => r.id)).Nodup)
    {a b : Server.ConfirmationCode} (ha : a ∈ db) (hb : b ∈ db)
    (hid : a.id = b.id) : a = b :=
  List.inj_on_of_nodup_map hnd ha hb hid

/-- C5: `USED` and `VOID` are terminal.  Any row already in status
`USED` or `VOID` survives, entirely unchanged, every operation of the
core: the payment-completed creation path (which only ever appends),
the refund voiding path (whose conditional update filters on status
`UNUSED`), and — on a table with distinct primary keys — the redeem
consumption path (which only updates a row validated to be `UNUSED`).
Hence a row leaves `UNUSED` at most once and never transitions out of
`USED` or `VOID`. -/
theorem C5_terminal_states (db : Server.DB) (r : Server.ConfirmationCode)
    (hmem : r ∈ db)
    (hterm : r.status = .USED ∨ r.status = .VOID) :
    (∀ ev cand nid, r ∈ (Server.handleCheckoutCompleted db ev cand nid).1) ∧
    (∀ pid, r ∈ Server.handleChargeRefunded db pid) ∧
    ((db.map (fun row => row.id)).Nodup →
      ∀ req nowMs envSecret jti,
        r ∈ (Server.redeem db req nowMs envSecret jti).1) := by
  refine ⟨?_, ?_, ?_⟩
  · intro ev cand nid
    unfold Server.handleCheckoutCompleted
    cases Server.truthy ev.paymentIntentId with
    | none => exact hmem
    | some pid =>
      simp only
      cases hcr : Server.create db
          { id := nid, code := cand, status := .UNUSED,
            customerEmail := Server.truthy ev.customerEmail,
            stripePaymentId := some pid,
            stripeSessionId := some ev.sessionId,
            expiresAt := none, usedAt := none, redeemAuditIp := none,
            redeemAuditUa := none, metadata := ev.metadata } with
      | ok db2 =>
        have hdb2 : r ∈ db2 := by
          unfold Server.create at hcr
          by_cases h1 : Server.hasCode db cand = true
          · rw [if_pos h1] at hcr; exact absurd hcr (by simp)
          · rw [if_neg h1] at hcr
            simp only at hcr
            by_cases h2 : Server.hasPaymentId db pid = true
            · rw [if_pos h2] at hcr; exact absurd hcr (by simp)
            · rw [if_neg h2] at hcr
              simp only [Except.ok.injEq] at hcr
              rw [← hcr]
              exact List.mem_append_left _ hmem
        cases Server.truthy ev.customerEmail with
        | none => exact hdb2
        | some em =>
          simp only
          cases Server.findFirstByPaymentId db2 pid <;> exact hdb2
      | error e =>
        cases e
        cases Server.truthy ev.customerEmail with
        | none => exact hmem
        | some em =>
          simp only
          cases Server.findFirstByPaymentId db pid <;> exact hmem
  · intro pid
    unfold Server.handleChargeRefunded
    cases Server.truthy pid with
    | none => exact hmem
    | some p =>
      simp only
      have : ¬(r.stripePaymentId = some p ∧ r.status = .UNUSED) := by
        rintro ⟨_, hu⟩
        cases hterm with
        | inl h => rw [h] at hu; exact Server.ConfirmationStatus.noConfusion hu
        | inr h => rw [h] at hu; exact Server.ConfirmationStatus.noConfusion hu
      have himg : (if r.stripePaymentId = some p ∧ r.status = .UNUSED then
          { r with status := Server.ConfirmationStatus.VOID } else r) = r :=
        if_neg this
      exact himg ▸ List.mem_map_of_mem _ hmem
  · intro hnd req nowMs envSecret jti
    unfold Server.redeem
    cases hph : Server.redeemPhase1 db req nowMs with
    | error e => exact hmem
    | ok row =>
      simp only
      obtain ⟨hrowmem, hrowstat⟩ := redeemPhase1_ok_mem db req nowMs row hph
      unfold Server.redeemPhase2 Server.updateById
      have hne : ¬(r.id = row.id) := by
        intro hid
        have : r = row := row_eq_of_id_eq db hnd hmem hrowmem hid
        rw [this] at hterm
        cases hterm with
        | inl h => rw [hrowstat] at h
                   exact Server.ConfirmationStatus.noConfusion h
        | inr h => rw [hrowstat] at h
                   exact Server.ConfirmationStatus.noConfusion h
      have himg : (if r.id = row.id then
            { r with
                status := Server.ConfirmationStatus.USED,
                usedAt := some nowMs,
                redeemAuditIp := some req.ip,
                redeemAuditUa := some req.ua }
          else r) = r := if_neg hne
      exact himg ▸ List.mem_map_of_mem _ hmem

/-- C5 witness: the theorem applied to a concrete one-row table whose
row is already `USED` — the row survives a refund of its own payment
and a redeem of its own code. -/
theorem C5_witness :
    ({ id := 1, code := "ABC234", status := .USED,
       customerEmail := none, stripePaymentId := some "pi_1",
       stripeSessionId := none, expiresAt := none, usedAt := some 7,
       redeemAuditIp := none, redeemAuditUa := none,
       metadata := none } : Server.ConfirmationCode) ∈
      Server.handleChargeRefunded
        [{ id := 1, code := "ABC234", status := .USED,
           customerEmail := none, stripePaymentId := some "pi_1",
           stripeSessionId := none, expiresAt := none, usedAt := some 7,
           redeemAuditIp := none, redeemAuditUa := none,
           metadata := none }] (some "pi_1") ∧
    ({ id := 1, code := "ABC234", status := .USED,
       customerEmail := none, stripePaymentId := some "pi_1",
       stripeSessionId := none, expiresAt := none, usedAt := some 7,
       redeemAuditIp := none, redeemAuditUa := none,
       metadata := none } : Server.ConfirmationCode) ∈
      (Server.redeem
        [{ id := 1, code := "ABC234", status := .USED,
           customerEmail := none, stripePaymentId := some "pi_1",
           stripeSessionId := none, expiresAt := none, usedAt := some 7,
           redeemAuditIp := none, redeemAuditUa := none,
           metadata := none }]
        { code := some "ABC234", email := none, name := none,
          ip := "", ua := "" } 9 (some "s") "j").1 := by
  constructor
  · exact (C5_terminal_states _ _ (by simp) (Or.inl rfl)).2.1 (some "pi_1")
  · exact (C5_terminal_states _ _ (by simp) (Or.inl rfl)).2.2 (by simp) _ 9
      (some "s") "j"

/-! ## C2 — payment-completed processing is idempotent -/

/-- A table with no row bound to `pi` finds none by `pi`. -/
theorem find?_paymentId_eq_none (db : Server.DB) (pi : String)
    (h : Server.hasPaymentId db pi = false) :
    Server.findFirstByPaymentId db pi = none := by
  unfold Server.findFirstByPaymentId
  rw [List.find?_eq_none]
  intro r hr
  unfold Server.hasPaymentId at h
  rw [List.any_eq_false] at h
  simpa using h r hr

/-- C2: processing a verified `checkout.session.completed` event twice
with the same payment reference `pi` yields exactly one row bound to
`pi`.  The first processing on a table holding no row for `pi` (with a
collision-free candidate code) creates one row carrying `cand1`; the
second processing — whatever fresh candidate and id it draws — changes
nothing (the insert hits a uniqueness violation, treated as a no-op),
and when an email address is present it looks up the existing row and
resends that same code `cand1`, never a distinct one. -/
theorem C2_payment_idempotency (db : Server.DB) (pi sid : String)
    (em md : Option String) (cand1 cand2 : String) (id1 id2 : Nat)
    (hpi : pi ≠ "")
    (hnopi : Server.hasPaymentId db pi = false)
    (hfresh : Server.hasCode db cand1 = false) :
    (((Server.handleCheckoutCompleted db
        { paymentIntentId := some pi, customerEmail := em,
          sessionId := sid, metadata := md } cand1 id1).1.filter
        (fun r => r.stripePaymentId == some pi)).map (fun r => r.code) =
      [cand1]) ∧
    (Server.handleCheckoutCompleted
      (Server.handleCheckoutCompleted db
        { paymentIntentId := some pi, customerEmail := em,
          sessionId := sid, metadata := md } cand1 id1).1
      { paymentIntentId := some pi, customerEmail := em,
        sessionId := sid, metadata := md } cand2 id2).1 =
      (Server.handleCheckoutCompleted db
        { paymentIntentId := some pi, customerEmail := em,
          sessionId := sid, metadata := md } cand1 id1).1 ∧
    (Server.handleCheckoutCompleted
      (Server.handleCheckoutCompleted db
        { paymentIntentId := some pi, customerEmail := em,
          sessionId := sid, metadata := md } cand1 id1).1
      { paymentIntentId := some pi, customerEmail := em,
        sessionId := sid, metadata := md } cand2 id2).2 =
      (match Server.truthy em with
       | some e => [{ toAddr := e, code := cand1 }]
       | none => []) := by
  have htr : Server.truthy (some pi) = some pi := by simp [Server.truthy, hpi]
  set row1 : Server.ConfirmationCode :=
    { id := id1, code := cand1, status := .UNUSED,
      customerEmail := Server.truthy em, stripePaymentId := some pi,
      stripeSessionId := some sid, expiresAt := none, usedAt := none,
      redeemAuditIp := none, redeemAuditUa := none,
      metadata := md } with hrow1
  have hcr1 : Server.create db row1 = .ok (db ++ [row1]) := by
    unfold Server.create
    rw [hrow1]
    simp only [hfresh, hnopi]
    simp
  have hfst1 : (Server.handleCheckoutCompleted db
      { paymentIntentId := some pi, customerEmail := em,
        sessionId := sid, metadata := md } cand1 id1).1 = db ++ [row1] := by
    unfold Server.handleCheckoutCompleted
    simp only [htr]
    rw [hcr1]
    cases Server.truthy em with
    | none => rfl
    | some e =>
      simp only
      cases Server.findFirstByPaymentId (db ++ [row1]) pi <;> rfl
  have hnomatch : ∀ r ∈ db, (r.stripePaymentId == some pi) = false := by
    intro r hr
    unfold Server.hasPaymentId at hnopi
    rw [List.any_eq_false] at hnopi
    simpa using hnopi r hr
  have hfind1 : Server.findFirstByPaymentId (db ++ [row1]) pi = some row1 := by
    unfold Server.findFirstByPaymentId
    rw [List.find?_append]
    have h1 : Server.findFirstByPaymentId db pi = none :=
      find?_paymentId_eq_none db pi hnopi
    unfold Server.findFirstByPaymentId at h1
    rw [h1]
    simp [hrow1]
  have hpid1 : Server.hasPaymentId (db ++ [row1]) pi = true := by
    unfold Server.hasPaymentId
    rw [List.any_append]
    simp [hrow1]
  have hcr2 : ∀ row2 : Server.ConfirmationCode,
      row2.stripePaymentId = some pi →
      Server.create (db ++ [row1]) row2 = .error .P2002 := by
    intro row2 h2
    unfold Server.create
    by_cases hc : Server.hasCode (db ++ [row1]) row2.code = true
    · rw [if_pos hc]
    · rw [if_neg hc, h2]
      simp [hpid1]
  have hsnd : (Server.handleCheckoutCompleted (db ++ [row1])
      { paymentIntentId := some pi, customerEmail := em,
        sessionId := sid, metadata := md } cand2 id2) =
      (db ++ [row1],
       match Server.truthy em with
       | some e => [{ toAddr := e, code := cand1 }]
       | none => []) := by
    unfold Server.handleCheckoutCompleted
    simp only [htr]
    rw [hcr2 _ rfl]
    cases Server.truthy em with
    | none => rfl
    | some e =>
      simp only
      rw [hfind1]
  refine ⟨?_, ?_, ?_⟩
  · rw [hfst1, List.filter_append _ _]
    have hdb : db.filter (fun r => r.stripePaymentId == some pi) = [] := by
      rw [List.filter_eq_nil_iff]
      intro r hr
      simp [hnomatch r hr]
    rw [hdb]
    simp [hrow1]
  · rw [hfst1, hsnd]
  · rw [hfst1, hsnd]

/-- C2 witness: the theorem applied to the empty table and concrete
event data — the second processing resends exactly the first
processing's code. -/
theorem C2_witness :
    Server.hasPaymentId [] "pi_1" = false ∧
    Server.hasCode [] "ABC234" = false ∧
    (Server.handleCheckoutCompleted
      (Server.handleCheckoutCompleted []
        { paymentIntentId := some "pi_1", customerEmail := some "a@x.com",
          sessionId := "cs_1", metadata := none } "ABC234" 1).1
      { paymentIntentId := some "pi_1", customerEmail := some "a@x.com",
        sessionId := "cs_1", metadata := none } "XYZ789" 2).2 =
      [{ toAddr := "a@x.com", code := "ABC234" }] := by
  refine ⟨rfl, rfl, ?_⟩
  have h := (C2_payment_idempotency [] "pi_1" "cs_1" (some "a@x.com") none
    "ABC234" "XYZ789" 1 2 (by decide) rfl rfl).2.2
  rw [h]
  rfl

/-! ## C4 — collision retry: demo path only, not the webhook path -/

/-- C4 counterexample: on the payment-completed webhook path a random
candidate code that collides with an existing row is NOT retried.  With
a table holding one row for a different payment under code `"ABC234"`,
processing a payment-completed event for the new payment `"pi_new"`
whose single candidate draw is the colliding `"ABC234"` leaves the
table unchanged and sends no email — no fresh candidate is generated,
no retry occurs, and the new payment ends up with no code at all. -/
theorem C4_counterexample :
    Server.handleCheckoutCompleted
      [{ id := 1, code := "ABC234", status := .UNUSED,
         customerEmail := none, stripePaymentId := some "pi_old",
         stripeSessionId := none, expiresAt := none, usedAt := none,
         redeemAuditIp := none, redeemAuditUa := none, metadata := none }]
      { paymentIntentId := some "pi_new", customerEmail := some "b@x.com",
        sessionId := "cs_2", metadata := none } "ABC234" 7 =
      ([{ id := 1, code := "ABC234", status := .UNUSED,
          customerEmail := none, stripePaymentId := some "pi_old",
          stripeSessionId := none, expiresAt := none, usedAt := none,
          redeemAuditIp := none, redeemAuditUa := none,
          metadata := none }], []) ∧
    ((Server.handleCheckoutCompleted
      [{ id := 1, code := "ABC234", status := .UNUSED,
         customerEmail := none, stripePaymentId := some "pi_old",
         stripeSessionId := none, expiresAt := none, usedAt := none,
         redeemAuditIp := none, redeemAuditUa := none, metadata := none }]
      { paymentIntentId := some "pi_new", customerEmail := some "b@x.com",
        sessionId := "cs_2", metadata := none } "ABC234" 7).1.filter
      (fun r => r.stripePaymentId == some "pi_new")) = [] := by decide

/-- C4 (amended): only the demo checkout path retries on a code-value
uniqueness violation — its loop regenerates a fresh candidate and
retries the insert, bounded at 5 attempts (a collision on the first
candidate followed by a fresh second candidate yields a created row
carrying the second candidate).  The payment-completed webhook path
makes a single insert attempt and treats any uniqueness violation as a
no-op: a code collision there leaves the table unchanged, with no
retry. -/
theorem C4_amended (db db2 : Server.DB) (ev : Server.CheckoutSessionEvent)
    (cand c1 c2 sid pi : String) (nid i1 i2 : Nat)
    (rest : List (String × Nat)) (em md : Option String)
    (hev : ev.paymentIntentId = some pi) (hpi : pi ≠ "")
    (hcoll : Server.hasCode db cand = true)
    (h1 : Server.hasCode db2 c1 = true)
    (h2 : Server.hasCode db2 c2 = false)
    (hc2 : c2 ≠ "") :
    (Server.handleCheckoutCompleted db ev cand nid).1 = db ∧
    Server.demoCheckout db2 em sid md ((c1, i1) :: (c2, i2) :: rest) =
      (db2 ++ [Server.demoRow c2 em sid md i2], some c2) := by
  constructor
  · unfold Server.handleCheckoutCompleted
    have htr : Server.truthy ev.paymentIntentId = some pi := by
      rw [hev]; simp [Server.truthy, hpi]
    simp only [htr]
    have hcr : Server.create db
        { id := nid, code := cand, status := .UNUSED,
          customerEmail := Server.truthy ev.customerEmail,
          stripePaymentId := some pi,
          stripeSessionId := some ev.sessionId,
          expiresAt := none, usedAt := none, redeemAuditIp := none,
          redeemAuditUa := none, metadata := ev.metadata } =
        .error .P2002 := by
      unfold Server.create
      rw [if_pos hcoll]
    rw [hcr]
    cases Server.truthy ev.customerEmail with
    | none => rfl
    | some e =>
      simp only
      cases Server.findFirstByPaymentId db pi <;> rfl
  · unfold Server.demoCheckout
    have htake : ((c1, i1) :: (c2, i2) :: rest).take 5 =
        (c1, i1) :: (c2, i2) :: rest.take 3 := rfl
    rw [htake]
    unfold Server.demoLoop
    have hcr1 : Server.create db2 (Server.demoRow c1 em sid md i1) =
        .error .P2002 := by
      unfold Server.create
      rw [if_pos]
      simpa [Server.demoRow] using h1
    rw [hcr1]
    unfold Server.demoLoop
    have hcr2 : Server.create db2 (Server.demoRow c2 em sid md i2) =
        .ok (db2 ++ [Server.demoRow c2 em sid md i2]) := by
      unfold Server.create
      rw [if_neg]
      · rfl
      · simpa [Server.demoRow] using h2
    rw [hcr2]
    simp [hc2]

/-- C4 witness: the amended theorem applied to a concrete one-row table
— the webhook path drops the colliding insert without retry, while the
demo path succeeds on its second candidate. -/
theorem C4_amended_witness :
    (Server.handleCheckoutCompleted
      [{ id := 1, code := "ABC234", status := .UNUSED,
         customerEmail := none, stripePaymentId := some "pi_old",
         stripeSessionId := none, expiresAt := none, usedAt := none,
         redeemAuditIp := none, redeemAuditUa := none, metadata := none }]
      { paymentIntentId := some "pi_new", customerEmail := none,
        sessionId := "cs_2", metadata := none } "ABC234" 7).1 =
      [{ id := 1, code := "ABC234", status := .UNUSED,
         customerEmail := none, stripePaymentId := some "pi_old",
         stripeSessionId := none, expiresAt := none, usedAt := none,
         redeemAuditIp := none, redeemAuditUa := none, metadata := none }] ∧
    Server.demoCheckout
      [{ id := 1, code := "ABC234", status := .UNUSED,
         customerEmail := none, stripePaymentId := some "pi_old",
         stripeSessionId := none, expiresAt := none, usedAt := none,
         redeemAuditIp := none, redeemAuditUa := none, metadata := none }]
      none "demo:1" none [("ABC234", 8), ("XYZ789", 9)] =
      ([{ id := 1, code := "ABC234", status := .UNUSED,
          customerEmail := none, stripePaymentId := some "pi_old",
          stripeSessionId := none, expiresAt := none, usedAt := none,
          redeemAuditIp := none, redeemAuditUa := none, metadata := none }]
        ++ [Server.demoRow "XYZ789" none "demo:1" none 9], some "XYZ789") :=
  C4_amended _ _
    { paymentIntentId := some "pi_new", customerEmail := none,
      sessionId := "cs_2", metadata := none }
    "ABC234" "ABC234" "XYZ789" "demo:1" "pi_new" 7 8 9 [] none none
    rfl (by decide) rfl rfl rfl (by decide)

/-! ## C1 — concurrent redemption is NOT a single atomic conditional
update -/

/-- C1: the `UNUSED → USED` transition in the redeem handler is a
read-then-write, not an atomic conditional update keyed on the current
status: the handler reads the row with `findUnique`, validates the
snapshot in JavaScript, then issues an `update` keyed only on `row.id`
that unconditionally sets `status = USED`.  Under the interleaving in
which both phase-1 reads of a concrete `UNUSED` row complete before
either phase-2 write, BOTH concurrent redeem calls succeed and each
mints a download credential — the claimed outcome of exactly one
success and one `AlreadyConsumedOrVoid` failure does not hold.  Run
sequentially, the same two calls do produce one success and one
`AlreadyConsumedOrVoid`. -/
theorem C1_interleaved_double_success :
    ((Server.interleavedDoubleRedeem
      [{ id := 1, code := "ABC234", status := .UNUSED,
         customerEmail := none, stripePaymentId := some "pi_1",
         stripeSessionId := none, expiresAt := none, usedAt := none,
         redeemAuditIp := none, redeemAuditUa := none, metadata := none }]
      { code := some "ABC234", email := none, name := none,
        ip := "203.0.113.1", ua := "ua1" }
      { code := some "ABC234", email := none, name := none,
        ip := "203.0.113.2", ua := "ua2" }
      5000 (some "jwtsecret") "jti1" "jti2").2.1 =
      .success (.signed ⟨"pass-download", 65, "jti1", none⟩ "jwtsecret") ∧
     (Server.interleavedDoubleRedeem
      [{ id := 1, code := "ABC234", status := .UNUSED,
         customerEmail := none, stripePaymentId := some "pi_1",
         stripeSessionId := none, expiresAt := none, usedAt := none,
         redeemAuditIp := none, redeemAuditUa := none, metadata := none }]
      { code := some "ABC234", email := none, name := none,
        ip := "203.0.113.1", ua := "ua1" }
      { code := some "ABC234", email := none, name := none,
        ip := "203.0.113.2", ua := "ua2" }
      5000 (some "jwtsecret") "jti1" "jti2").2.2 =
      .success (.signed ⟨"pass-download", 65, "jti2", none⟩ "jwtsecret")) ∧
    ((Server.redeem
      (Server.redeem
        [{ id := 1, code := "ABC234", status := .UNUSED,
           customerEmail := none, stripePaymentId := some "pi_1",
           stripeSessionId := none, expiresAt := none, usedAt := none,
           redeemAuditIp := none, redeemAuditUa := none,
           metadata := none }]
        { code := some "ABC234", email := none, name := none,
          ip := "203.0.113.1", ua := "ua1" } 5000 (some "jwtsecret")
        "jti1").1
      { code := some "ABC234", email := none, name := none,
        ip := "203.0.113.2", ua := "ua2" } 5000 (some "jwtsecret")
      "jti2").2 = .failure .AlreadyConsumedOrVoid) := by decide
